import Mathlib

set_option maxRecDepth 100000

/-!
Verification of the KHQR payment-payload encoder of this repository
(`supabase/functions/bakong-qr/index.ts`): the `generateKHQRString`
TLV encoder and the `calculateCRC16` checksum engine, together with
the near-duplicate copy of `generateKHQRString` shipped in a second
edge function (modelled below in namespace `Part002`).

JavaScript strings are modelled as lists of natural-number code units
(`JStr`); every string operation the source uses (`length`,
`substring(0, n)`, `+`, `charCodeAt`, `padStart`, `toString`,
`toUpperCase`) is given a faithful counterpart on `JStr`.
-/

/-- A JavaScript string, as its sequence of UTF-16 code units.
All literals in the source are ASCII, so mapping Lean characters to
their code points is exact for them. -/
abbrev JStr := List Nat

/-- Embed a Lean string literal as a `JStr`. -/
def jsStr (s : String) : JStr := s.data.map Char.toNat

/-- JavaScript `Number.prototype.toString()` (base 10) for a natural
number: decimal digits, no leading zeros (`"0"` for zero). -/
def jsOfNat (n : Nat) : JStr := (Nat.toDigits 10 n).map Char.toNat

/-- JavaScript `String.prototype.padStart(n, c)` for a one-character
pad string `c`: if the receiver already has at least `n` characters it
is returned unchanged, otherwise copies of `c` are prepended up to
length `n`. -/
def jsPadStart (s : JStr) (n : Nat) (c : Nat) : JStr :=
  if n ≤ s.length then s else List.replicate (n - s.length) c ++ s

/-- JavaScript `String.prototype.toUpperCase()` restricted to its
effect on ASCII code units (the only ones the source ever produces
here: lowercase hex digits). -/
def jsToUpperCase (s : JStr) : JStr :=
  s.map (fun c => if 97 ≤ c ∧ c ≤ 122 then c - 32 else c)

/-- JavaScript `Number.prototype.toString(16)` for a natural number:
lowercase hexadecimal, `"0"` for zero, no leading zeros. -/
def jsToStringHex (n : Nat) : JStr := (Nat.toDigits 16 n).map Char.toNat

/-- One iteration of the inner loop of `calculateCRC16`:
`if (crc & 0x8000) { crc = (crc << 1) ^ 0x1021; } else { crc <<= 1; }`.
JavaScript `<<` and `^` operate on the operand's low 32 bits
(`ToInt32`), hence the reduction modulo `2 ^ 32`; the sign of the
32-bit value never matters because only bit patterns are used. -/
def crcRound (crc : Nat) : Nat :=
  if crc &&& 0x8000 ≠ 0 then ((crc <<< 1) % 4294967296) ^^^ 0x1021
  else (crc <<< 1) % 4294967296

/-- `k` iterations of the inner loop (`for (let j = 0; j < 8; j++)`). -/
def crcRounds (crc : Nat) : Nat → Nat
  | 0 => crc
  | k + 1 => crcRounds (crcRound crc) k

/-- One iteration of the outer loop of `calculateCRC16` for the code
unit `c`: `crc ^= str.charCodeAt(i) << 8;` then the eight inner
rounds, then `crc &= 0xFFFF;`. -/
def crcChar (crc c : Nat) : Nat :=
  (crcRounds (crc ^^^ ((c <<< 8) % 4294967296)) 8) &&& 0xFFFF

/-- `calculateCRC16` from `supabase/functions/bakong-qr/index.ts`:
register starts at `0xFFFF`, each character is folded in by
`crcChar`, and the result is rendered by
`crc.toString(16).toUpperCase().padStart(4, "0")`. -/
def calculateCRC16 (str : JStr) : JStr :=
  jsPadStart (jsToUpperCase (jsToStringHex (str.foldl crcChar 0xFFFF))) 4 48

/-- Reference CRC16-CCITT-FALSE round as worded by the specification:
shift left by one and XOR with `0x1021` when the high bit of the
16-bit register was set, masking the register to 16 bits after every
shift. -/
def crcRefRound (crc : Nat) : Nat :=
  if crc &&& 0x8000 ≠ 0 then ((crc <<< 1) ^^^ 0x1021) &&& 0xFFFF
  else (crc <<< 1) &&& 0xFFFF

/-- `k` reference rounds. -/
def crcRefRounds (crc : Nat) : Nat → Nat
  | 0 => crc
  | k + 1 => crcRefRounds (crcRefRound crc) k

/-- Reference per-character step: XOR the character's code unit,
shifted left 8 bits, into the register, then run eight rounds. -/
def crcRefChar (crc c : Nat) : Nat := crcRefRounds (crc ^^^ (c <<< 8)) 8

/-- The CRC16-CCITT-FALSE reference definition from the specification:
start from `0xFFFF`, fold every character in order through
`crcRefChar`, and format the register as uppercase hexadecimal
left-padded with `'0'` to 4 characters. -/
def crc16Ref (str : JStr) : JStr :=
  jsPadStart (jsToUpperCase (jsToStringHex (str.foldl crcRefChar 0xFFFF))) 4 48

/-- Sanity check: the empty string hashes to the initial register. -/
theorem crc_empty_check : calculateCRC16 (jsStr "") = jsStr "FFFF" := by decide

/-- Sanity check against the published CRC16-CCITT-FALSE test vector
for `"123456789"` (0x29B1). -/
theorem crc_test_vector : calculateCRC16 (jsStr "123456789") = jsStr "29B1" := by decide

/-- The reference definition reproduces the same published vector. -/
theorem crcRef_test_vector : crc16Ref (jsStr "123456789") = jsStr "29B1" := by decide

/-!
## The TLV payload encoder

`generateKHQRString` from `supabase/functions/bakong-qr/index.ts`.
The payload object fields the function reads are gathered in
`Payload`; `amount` arrives as an already-formatted string (the
caller passes `finalAmount.toFixed(...)`), so `payload.amount.toString()`
is the identity on it.
-/

/-- The fields of the `khqrPayload` object that `generateKHQRString`
reads (`merchantCountry`, `additionalData` and `accountNumber` are
never read by the function and are omitted). -/
structure Payload where
  merchantId : JStr
  merchantName : JStr
  merchantCity : JStr
  currency : JStr
  amount : JStr
  transactionId : JStr

/-- `const bakongId = "0006bakong";` — acquiring institution ID. -/
def bakongId : JStr := jsStr "0006bakong"

/-- `const merchantAcct = payload.merchantId.length.toString().padStart(2, "0") + payload.merchantId;` -/
def merchantAcct (p : Payload) : JStr :=
  jsPadStart (jsOfNat p.merchantId.length) 2 48 ++ p.merchantId

/-- `const merchantInfo = bakongId + "01" + merchantAcct;` -/
def merchantInfo (p : Payload) : JStr :=
  bakongId ++ jsStr "01" ++ merchantAcct p

/-- `const currencyCode = payload.currency === "USD" ? "840" : "116";` -/
def currencyCode (p : Payload) : JStr :=
  if p.currency = jsStr "USD" then jsStr "840" else jsStr "116"

/-- `const amountStr = payload.amount.toString();` — the amount is a
string, so this is the identity. -/
def amountStr (p : Payload) : JStr := p.amount

/-- `const merchantName = payload.merchantName.substring(0, 25);` -/
def merchantName25 (p : Payload) : JStr := p.merchantName.take 25

/-- `const merchantCity = payload.merchantCity.substring(0, 15);` -/
def merchantCity15 (p : Payload) : JStr := p.merchantCity.take 15

/-- `const billNumber = payload.transactionId.substring(0, 25);` -/
def billNumber (p : Payload) : JStr := p.transactionId.take 25

/-- `const additionalData = "01" + billNumber.length.toString().padStart(2, "0") + billNumber;` -/
def additionalData (p : Payload) : JStr :=
  jsStr "01" ++ jsPadStart (jsOfNat (billNumber p).length) 2 48 ++ billNumber p

/-- The value of `qrString` in `generateKHQRString` right before
`calculateCRC16` is invoked: every concatenation the function performs
through `qrString += "6304";`, in source order. -/
def khqrBody (p : Payload) : JStr :=
  jsStr "000201" ++
  jsStr "010212" ++
  (jsStr "29" ++ jsPadStart (jsOfNat (merchantInfo p).length) 2 48 ++ merchantInfo p) ++
  jsStr "52045411" ++
  (jsStr "5303" ++ currencyCode p) ++
  (jsStr "54" ++ jsPadStart (jsOfNat (amountStr p).length) 2 48 ++ amountStr p) ++
  jsStr "5802KH" ++
  (jsStr "59" ++ jsPadStart (jsOfNat (merchantName25 p).length) 2 48 ++ merchantName25 p) ++
  (jsStr "60" ++ jsPadStart (jsOfNat (merchantCity15 p).length) 2 48 ++ merchantCity15 p) ++
  (jsStr "62" ++ jsPadStart (jsOfNat (additionalData p).length) 2 48 ++ additionalData p) ++
  jsStr "6304"

/-- `generateKHQRString` from `supabase/functions/bakong-qr/index.ts`:
the body through the `6304` CRC placeholder, followed by
`calculateCRC16` of exactly that body. -/
def generateKHQRString (p : Payload) : JStr :=
  khqrBody p ++ calculateCRC16 (khqrBody p)

namespace Part002

/-- `generateKHQRString` as it appears in the second edge function
(source file `unnamed/part_002`, lines 174–225); its `calculateCRC16`
(lines 227–241) is character-for-character the same as the one
embedded above, so it is reused. The helper constants below mirror
that copy of the function line by line. -/
def bakongId : JStr := jsStr "0006bakong"

/-- `const merchantAcct = payload.merchantId.length.toString().padStart(2, "0") + payload.merchantId;` -/
def merchantAcct (p : Payload) : JStr :=
  jsPadStart (jsOfNat p.merchantId.length) 2 48 ++ p.merchantId

/-- `const merchantInfo = bakongId + "01" + merchantAcct;` -/
def merchantInfo (p : Payload) : JStr :=
  bakongId ++ jsStr "01" ++ merchantAcct p

/-- `const currencyCode = payload.currency === "USD" ? "840" : "116";` -/
def currencyCode (p : Payload) : JStr :=
  if p.currency = jsStr "USD" then jsStr "840" else jsStr "116"

/-- `const amountStr = payload.amount.toString();` -/
def amountStr (p : Payload) : JStr := p.amount

/-- `const merchantName = payload.merchantName.substring(0, 25);` -/
def merchantName25 (p : Payload) : JStr := p.merchantName.take 25

/-- `const merchantCity = payload.merchantCity.substring(0, 15);` -/
def merchantCity15 (p : Payload) : JStr := p.merchantCity.take 15

/-- `const billNumber = payload.transactionId.substring(0, 25);` -/
def billNumber (p : Payload) : JStr := p.transactionId.take 25

/-- `const additionalData = "01" + billNumber.length.toString().padStart(2, "0") + billNumber;` -/
def additionalData (p : Payload) : JStr :=
  jsStr "01" ++ jsPadStart (jsOfNat (billNumber p).length) 2 48 ++ billNumber p

/-- The `qrString` of the part_002 copy right before its CRC call. -/
def khqrBody (p : Payload) : JStr :=
  jsStr "000201" ++
  jsStr "010212" ++
  (jsStr "29" ++ jsPadStart (jsOfNat (merchantInfo p).length) 2 48 ++ merchantInfo p) ++
  jsStr "52045411" ++
  (jsStr "5303" ++ currencyCode p) ++
  (jsStr "54" ++ jsPadStart (jsOfNat (amountStr p).length) 2 48 ++ amountStr p) ++
  jsStr "5802KH" ++
  (jsStr "59" ++ jsPadStart (jsOfNat (merchantName25 p).length) 2 48 ++ merchantName25 p) ++
  (jsStr "60" ++ jsPadStart (jsOfNat (merchantCity15 p).length) 2 48 ++ merchantCity15 p) ++
  (jsStr "62" ++ jsPadStart (jsOfNat (additionalData p).length) 2 48 ++ additionalData p) ++
  jsStr "6304"

/-- `generateKHQRString` of `unnamed/part_002`. -/
def generateKHQRString (p : Payload) : JStr :=
  khqrBody p ++ calculateCRC16 (khqrBody p)

end Part002

/-!
## A sequential TLV parser and string predicates

`parseTLV` reads `tag(2) + length(2) + value(length)` fields until the
input is exhausted, failing when fewer than 4 characters remain at a
field boundary or when a declared length overruns the input — so a
`some` result means the whole string was consumed with no leftover or
missing characters.
-/

/-- Fuel-driven worker for `parseTLV`: each parsed field consumes at
least four characters, so the input's length is always enough fuel. -/
def parseTLVF : Nat → JStr → Option (List (JStr × JStr))
  | _, [] => some []
  | fuel + 1, t1 :: t2 :: l1 :: l2 :: rest =>
    let n := (l1 - 48) * 10 + (l2 - 48)
    if n ≤ rest.length then
      match parseTLVF fuel (rest.drop n) with
      | some fs => some (([t1, t2], rest.take n) :: fs)
      | none => none
    else none
  | _, _ => none

/-- Sequential TLV parse: two tag characters, two decimal length
digits, then exactly that many value characters, repeated to the end
of the input. -/
def parseTLV (l : JStr) : Option (List (JStr × JStr)) := parseTLVF l.length l

/-- The result of `parseTLVF` does not depend on the fuel once the
fuel covers the input's length. -/
theorem parseTLVF_fuel : ∀ (fuel1 : Nat) (l : JStr) (fuel2 : Nat),
    l.length ≤ fuel1 → l.length ≤ fuel2 → parseTLVF fuel1 l = parseTLVF fuel2 l := by
  intro fuel1
  induction fuel1 using Nat.strong_induction_on with
  | _ fuel1 ih =>
    intro l fuel2 h1 h2
    have hnil : ∀ f, parseTLVF f [] = some [] := fun f => by cases f <;> rfl
    match l, fuel1, fuel2 with
    | [], f1, f2 => rw [hnil, hnil]
    | [a], f1 + 1, f2 + 1 => rfl
    | [a, b], f1 + 1, f2 + 1 => rfl
    | [a, b, c], f1 + 1, f2 + 1 => rfl
    | t1 :: t2 :: l1 :: l2 :: rest, f1 + 1, f2 + 1 =>
      simp only [parseTLVF]
      have hlen : (rest.drop ((l1 - 48) * 10 + (l2 - 48))).length ≤ f1 := by
        simp only [List.length_drop]
        simp only [List.length_cons] at h1
        omega
      have hlen2 : (rest.drop ((l1 - 48) * 10 + (l2 - 48))).length ≤ f2 := by
        simp only [List.length_drop]
        simp only [List.length_cons] at h2
        omega
      rw [ih f1 (by omega) _ f2 hlen hlen2]

/-- The decimal value of a two-character length prefix, as `parseTLV`
reads it. -/
def decode2 : JStr → Nat
  | a :: b :: _ => (a - 48) * 10 + (b - 48)
  | _ => 0

/-- `s` begins with the characters `pre`. -/
def beginsWith (pre s : JStr) : Prop := ∃ t, s = pre ++ t

/-- `s` ends with the characters `suf`. -/
def endsWith (suf s : JStr) : Prop := ∃ t, s = t ++ suf

/-- `s` contains the characters `seg` as a contiguous segment. -/
def containsSeg (seg s : JStr) : Prop := ∃ l r, s = l ++ seg ++ r

/-- The end-to-end descriptor of spec §8 with its amount already
formatted by `toFixed(2)`, used to instantiate universally quantified
theorems at a concrete input. -/
def samplePayload : Payload where
  merchantId := jsStr "merchant@bakong"
  merchantName := jsStr "GameHost"
  merchantCity := jsStr "Phnom Penh"
  currency := jsStr "USD"
  amount := jsStr "10.00"
  transactionId := jsStr "ORDER123"

/-- The sample descriptor with currency KHR and a `toFixed(0)` amount. -/
def samplePayloadKHR : Payload where
  merchantId := jsStr "merchant@bakong"
  merchantName := jsStr "GameHost"
  merchantCity := jsStr "Phnom Penh"
  currency := jsStr "KHR"
  amount := jsStr "51250"
  transactionId := jsStr "ORDER123"

/-- The sample descriptor with a 30-character merchant name. -/
def samplePayloadLongName : Payload where
  merchantId := jsStr "merchant@bakong"
  merchantName := jsStr "ABCDEFGHIJKLMNOPQRSTUVWXYZ1234"
  merchantCity := jsStr "Phnom Penh"
  currency := jsStr "USD"
  amount := jsStr "10.00"
  transactionId := jsStr "ORDER123"

/-- The sample descriptor with the unsupported currency `"EUR"`. -/
def samplePayloadEUR : Payload where
  merchantId := jsStr "merchant@bakong"
  merchantName := jsStr "GameHost"
  merchantCity := jsStr "Phnom Penh"
  currency := jsStr "EUR"
  amount := jsStr "10.00"
  transactionId := jsStr "ORDER123"

/-- The sample descriptor with the negative amount `(-5).toFixed(2)`. -/
def samplePayloadNeg : Payload where
  merchantId := jsStr "merchant@bakong"
  merchantName := jsStr "GameHost"
  merchantCity := jsStr "Phnom Penh"
  currency := jsStr "USD"
  amount := jsStr "-5.00"
  transactionId := jsStr "ORDER123"

set_option maxHeartbeats 2000000 in
/-- For any count up to 99, the source's
`n.toString().padStart(2, "0")` length prefix has exactly two
characters and decodes back to `n`. -/
theorem pad2_spec : ∀ n < 100,
    (jsPadStart (jsOfNat n) 2 48).length = 2 ∧
    decode2 (jsPadStart (jsOfNat n) 2 48) = n := by decide

/-- Two explicit digit characters for a two-digit length prefix. -/
theorem pad2_digits {n : Nat} (h : n ≤ 99) :
    ∃ d1 d2, jsPadStart (jsOfNat n) 2 48 = [d1, d2] ∧ (d1 - 48) * 10 + (d2 - 48) = n := by
  obtain ⟨hlen, hdec⟩ := pad2_spec n (by omega)
  obtain ⟨d1, d2, hd⟩ := List.length_eq_two.mp hlen
  exact ⟨d1, d2, hd, by rw [hd] at hdec; simpa [decode2] using hdec⟩

/-- One `parseTLV` step across an explicit field whose length prefix
decodes to the exact value length. -/
theorem parseTLV_chunk (t1 t2 d1 d2 : Nat) (v rest : JStr)
    (hdec : (d1 - 48) * 10 + (d2 - 48) = v.length) :
    parseTLV (t1 :: t2 :: d1 :: d2 :: (v ++ rest)) =
      (parseTLV rest).map (fun fs => ([t1, t2], v) :: fs) := by
  unfold parseTLV
  simp only [List.length_cons, parseTLVF, hdec, List.length_append,
    le_add_iff_nonneg_right, Nat.zero_le, if_true, List.drop_left, List.take_left]
  rw [parseTLVF_fuel (v.length + rest.length + 1 + 1 + 1) rest rest.length (by omega) le_rfl]
  cases parseTLVF rest.length rest <;> rfl

/-- One `parseTLV` step across a final field (nothing after it). -/
theorem parseTLV_last (t1 t2 d1 d2 : Nat) (v : JStr)
    (hdec : (d1 - 48) * 10 + (d2 - 48) = v.length) :
    parseTLV (t1 :: t2 :: d1 :: d2 :: v) = some [([t1, t2], v)] := by
  have h0 : parseTLV [] = some [] := rfl
  have := parseTLV_chunk t1 t2 d1 d2 v [] hdec
  simpa [h0] using this

/-!
## Length facts and literal evaluations
-/

/-- `padStart` yields the max of the target and the original length. -/
theorem jsPadStart_length (s : JStr) (n c : Nat) :
    (jsPadStart s n c).length = max n s.length := by
  unfold jsPadStart
  split
  · omega
  · simp only [List.length_append, List.length_replicate]
    omega

/-- A two-digit length prefix for any count up to 99. -/
theorem pad2_len {n : Nat} (h : n ≤ 99) :
    (jsPadStart (jsOfNat n) 2 48).length = 2 :=
  (pad2_spec n (by omega)).1

/-- The CRC register stays within 16 bits across the fold. -/
theorem crcFold_le (l : JStr) : ∀ s, s ≤ 65535 → l.foldl crcChar s ≤ 65535 := by
  induction l with
  | nil => exact fun s h => h
  | cons c l ih =>
    intro s _
    exact ih (crcChar s c) (Nat.and_le_right)

/-- `toString(16)` of a 16-bit value has at most 4 digits. -/
theorem jsToStringHex_length_le {n : Nat} (h : n ≤ 65535) :
    (jsToStringHex n).length ≤ 4 := by
  unfold jsToStringHex Nat.toDigits
  rw [List.length_map]
  exact Nat.toDigitsCore_length 16 (by norm_num) (n + 1) n 4 (by norm_num; omega) (by norm_num)

/-- `calculateCRC16` always returns exactly four characters. -/
theorem calculateCRC16_length (l : JStr) : (calculateCRC16 l).length = 4 := by
  unfold calculateCRC16
  rw [jsPadStart_length]
  have h1 : (jsToStringHex (l.foldl crcChar 65535)).length ≤ 4 :=
    jsToStringHex_length_le (crcFold_le l 65535 le_rfl)
  have h2 : (jsToUpperCase (jsToStringHex (l.foldl crcChar 65535))).length ≤ 4 := by
    unfold jsToUpperCase
    rw [List.length_map]
    exact h1
  omega

/-- Code-unit expansions of the string literals the encoder emits. -/
theorem jsl_000201 : jsStr "000201" = [48, 48, 48, 50, 48, 49] := rfl

theorem jsl_010212 : jsStr "010212" = [48, 49, 48, 50, 49, 50] := rfl

theorem jsl_29 : jsStr "29" = [50, 57] := rfl

theorem jsl_52045411 : jsStr "52045411" = [53, 50, 48, 52, 53, 52, 49, 49] := rfl

theorem jsl_5303 : jsStr "5303" = [53, 51, 48, 51] := rfl

theorem jsl_54 : jsStr "54" = [53, 52] := rfl

theorem jsl_5802KH : jsStr "5802KH" = [53, 56, 48, 50, 75, 72] := rfl

theorem jsl_59 : jsStr "59" = [53, 57] := rfl

theorem jsl_60 : jsStr "60" = [54, 48] := rfl

theorem jsl_62 : jsStr "62" = [54, 50] := rfl

theorem jsl_6304 : jsStr "6304" = [54, 51, 48, 52] := rfl

theorem jsl_01 : jsStr "01" = [48, 49] := rfl

theorem jsl_bakongId : bakongId = [48, 48, 48, 54, 98, 97, 107, 111, 110, 103] := rfl

/-- `merchantInfo` is 14 characters of wrapper around the merchant id,
once the id is short enough for a two-digit length prefix. -/
theorem merchantInfo_length (p : Payload) (h : p.merchantId.length ≤ 99) :
    (merchantInfo p).length = 14 + p.merchantId.length := by
  simp only [merchantInfo, merchantAcct, List.length_append, jsl_bakongId, jsl_01,
    pad2_len h, List.length_cons, List.length_nil]
  omega

/-- The currency code always has three characters. -/
theorem currencyCode_length (p : Payload) : (currencyCode p).length = 3 := by
  unfold currencyCode
  split <;> rfl

/-- The bill number is at most 25 characters. -/
theorem billNumber_length_le (p : Payload) : (billNumber p).length ≤ 25 := by
  simp only [billNumber, List.length_take]
  omega

/-- `additionalData` is 4 characters of wrapper around the bill number. -/
theorem additionalData_length (p : Payload) :
    (additionalData p).length = 4 + (billNumber p).length := by
  simp only [additionalData, List.length_append, jsl_01,
    pad2_len (le_trans (billNumber_length_le p) (by norm_num)),
    List.length_cons, List.length_nil]

/-- The truncated merchant name is at most 25 characters. -/
theorem merchantName25_length_le (p : Payload) : (merchantName25 p).length ≤ 25 := by
  simp only [merchantName25, List.length_take]
  omega

/-- The truncated merchant city is at most 15 characters. -/
theorem merchantCity15_length_le (p : Payload) : (merchantCity15 p).length ≤ 15 := by
  simp only [merchantCity15, List.length_take]
  omega

theorem jsl_000201010212 : jsStr "000201010212" =
    [48, 48, 48, 50, 48, 49, 48, 49, 48, 50, 49, 50] := rfl

theorem jsl_5303840 : jsStr "5303840" = [53, 51, 48, 51, 56, 52, 48] := rfl

theorem jsl_5303116 : jsStr "5303116" = [53, 51, 48, 51, 49, 49, 54] := rfl

theorem jsl_840 : jsStr "840" = [56, 52, 48] := rfl

theorem jsl_116 : jsStr "116" = [49, 49, 54] := rfl

/-!
## Claim theorems
-/

/-- Claim C1: for every payment descriptor, the encoder's output ends in
exactly 4 characters that equal `calculateCRC16` of all preceding
characters, those preceding characters end with the literal `"6304"`,
and the checksum characters themselves are outside the checksummed
input. -/
theorem crc_placement (p : Payload) :
    (generateKHQRString p).drop ((generateKHQRString p).length - 4) =
      calculateCRC16 ((generateKHQRString p).take ((generateKHQRString p).length - 4)) ∧
    ((generateKHQRString p).drop ((generateKHQRString p).length - 4)).length = 4 ∧
    endsWith (jsStr "6304") ((generateKHQRString p).take ((generateKHQRString p).length - 4)) := by
  have hlen : (generateKHQRString p).length - 4 = (khqrBody p).length := by
    simp [generateKHQRString, List.length_append, calculateCRC16_length]
  have htake : (generateKHQRString p).take ((generateKHQRString p).length - 4) = khqrBody p := by
    rw [hlen]
    exact List.take_left _ _
  have hdrop : (generateKHQRString p).drop ((generateKHQRString p).length - 4) =
      calculateCRC16 (khqrBody p) := by
    rw [hlen]
    exact List.drop_left _ _
  refine ⟨?_, ?_, ?_⟩
  · rw [hdrop, htake]
  · rw [hdrop]
    exact calculateCRC16_length _
  · rw [htake]
    refine ⟨jsStr "000201" ++ jsStr "010212" ++
      (jsStr "29" ++ jsPadStart (jsOfNat (merchantInfo p).length) 2 48 ++ merchantInfo p) ++
      jsStr "52045411" ++ (jsStr "5303" ++ currencyCode p) ++
      (jsStr "54" ++ jsPadStart (jsOfNat (amountStr p).length) 2 48 ++ amountStr p) ++
      jsStr "5802KH" ++
      (jsStr "59" ++ jsPadStart (jsOfNat (merchantName25 p).length) 2 48 ++ merchantName25 p) ++
      (jsStr "60" ++ jsPadStart (jsOfNat (merchantCity15 p).length) 2 48 ++ merchantCity15 p) ++
      (jsStr "62" ++ jsPadStart (jsOfNat (additionalData p).length) 2 48 ++ additionalData p), ?_⟩
    simp [khqrBody, List.append_assoc]

/-- Claim C9: the encoder is deterministic: it is a pure function of the
descriptor alone (the embedding needed no state, time or randomness
parameter), so two invocations on equal descriptors return identical
strings. -/
theorem encoder_deterministic (p q : Payload) (h : p = q) :
    generateKHQRString p = generateKHQRString q := by rw [h]

/-- Witness for C9 at the spec §8 sample descriptor. -/
theorem encoder_deterministic_witness :
    generateKHQRString samplePayload = generateKHQRString samplePayload :=
  encoder_deterministic samplePayload samplePayload rfl

/-- Claim C10: the `generateKHQRString` of `supabase/functions/bakong-qr/index.ts`
and the `generateKHQRString` of `unnamed/part_002` agree on every
payload: the two bodies are character-for-character the same code. -/
theorem part002_encoder_eq (p : Payload) :
    Part002.generateKHQRString p = generateKHQRString p := rfl

/-- Claim C4: the encoder emits the TLV fields in the fixed order 00, 01,
29, 52, 53, 54, 58, 59, 60, 62, 63: the output is exactly that
concatenation, begins with `"000201010212"`, contains the constant
fields `"52045411"` and `"5802KH"`, and the tag-62 value nests exactly
one bill-number sub-field with sub-tag `"01"` whose value is the
transaction id truncated to 25 characters. -/
theorem field_order (p : Payload) :
    generateKHQRString p =
      jsStr "000201" ++ jsStr "010212" ++
      (jsStr "29" ++ jsPadStart (jsOfNat (merchantInfo p).length) 2 48 ++ merchantInfo p) ++
      jsStr "52045411" ++ (jsStr "5303" ++ currencyCode p) ++
      (jsStr "54" ++ jsPadStart (jsOfNat (amountStr p).length) 2 48 ++ amountStr p) ++
      jsStr "5802KH" ++
      (jsStr "59" ++ jsPadStart (jsOfNat (merchantName25 p).length) 2 48 ++ merchantName25 p) ++
      (jsStr "60" ++ jsPadStart (jsOfNat (merchantCity15 p).length) 2 48 ++ merchantCity15 p) ++
      (jsStr "62" ++ jsPadStart (jsOfNat (additionalData p).length) 2 48 ++ additionalData p) ++
      jsStr "6304" ++ calculateCRC16 (khqrBody p) ∧
    beginsWith (jsStr "000201010212") (generateKHQRString p) ∧
    containsSeg (jsStr "52045411") (generateKHQRString p) ∧
    containsSeg (jsStr "5802KH") (generateKHQRString p) ∧
    additionalData p =
      jsStr "01" ++ jsPadStart (jsOfNat (p.transactionId.take 25).length) 2 48 ++
        p.transactionId.take 25 ∧
    containsSeg
      (jsStr "62" ++ jsPadStart (jsOfNat (additionalData p).length) 2 48 ++ additionalData p)
      (generateKHQRString p) := by
  refine ⟨?_, ?_, ?_, ?_, rfl, ?_⟩
  · simp [generateKHQRString, khqrBody, List.append_assoc]
  · refine ⟨(jsStr "29" ++ jsPadStart (jsOfNat (merchantInfo p).length) 2 48 ++ merchantInfo p) ++
      jsStr "52045411" ++ (jsStr "5303" ++ currencyCode p) ++
      (jsStr "54" ++ jsPadStart (jsOfNat (amountStr p).length) 2 48 ++ amountStr p) ++
      jsStr "5802KH" ++
      (jsStr "59" ++ jsPadStart (jsOfNat (merchantName25 p).length) 2 48 ++ merchantName25 p) ++
      (jsStr "60" ++ jsPadStart (jsOfNat (merchantCity15 p).length) 2 48 ++ merchantCity15 p) ++
      (jsStr "62" ++ jsPadStart (jsOfNat (additionalData p).length) 2 48 ++ additionalData p) ++
      jsStr "6304" ++ calculateCRC16 (khqrBody p), ?_⟩
    simp [generateKHQRString, khqrBody, List.append_assoc, jsl_000201, jsl_010212,
      jsl_000201010212, List.cons_append, List.nil_append]
  · refine ⟨jsStr "000201" ++ jsStr "010212" ++
      (jsStr "29" ++ jsPadStart (jsOfNat (merchantInfo p).length) 2 48 ++ merchantInfo p),
      (jsStr "5303" ++ currencyCode p) ++
      (jsStr "54" ++ jsPadStart (jsOfNat (amountStr p).length) 2 48 ++ amountStr p) ++
      jsStr "5802KH" ++
      (jsStr "59" ++ jsPadStart (jsOfNat (merchantName25 p).length) 2 48 ++ merchantName25 p) ++
      (jsStr "60" ++ jsPadStart (jsOfNat (merchantCity15 p).length) 2 48 ++ merchantCity15 p) ++
      (jsStr "62" ++ jsPadStart (jsOfNat (additionalData p).length) 2 48 ++ additionalData p) ++
      jsStr "6304" ++ calculateCRC16 (khqrBody p), ?_⟩
    simp [generateKHQRString, khqrBody, List.append_assoc]
  · refine ⟨jsStr "000201" ++ jsStr "010212" ++
      (jsStr "29" ++ jsPadStart (jsOfNat (merchantInfo p).length) 2 48 ++ merchantInfo p) ++
      jsStr "52045411" ++ (jsStr "5303" ++ currencyCode p) ++
      (jsStr "54" ++ jsPadStart (jsOfNat (amountStr p).length) 2 48 ++ amountStr p),
      (jsStr "59" ++ jsPadStart (jsOfNat (merchantName25 p).length) 2 48 ++ merchantName25 p) ++
      (jsStr "60" ++ jsPadStart (jsOfNat (merchantCity15 p).length) 2 48 ++ merchantCity15 p) ++
      (jsStr "62" ++ jsPadStart (jsOfNat (additionalData p).length) 2 48 ++ additionalData p) ++
      jsStr "6304" ++ calculateCRC16 (khqrBody p), ?_⟩
    simp [generateKHQRString, khqrBody, List.append_assoc]
  · refine ⟨jsStr "000201" ++ jsStr "010212" ++
      (jsStr "29" ++ jsPadStart (jsOfNat (merchantInfo p).length) 2 48 ++ merchantInfo p) ++
      jsStr "52045411" ++ (jsStr "5303" ++ currencyCode p) ++
      (jsStr "54" ++ jsPadStart (jsOfNat (amountStr p).length) 2 48 ++ amountStr p) ++
      jsStr "5802KH" ++
      (jsStr "59" ++ jsPadStart (jsOfNat (merchantName25 p).length) 2 48 ++ merchantName25 p) ++
      (jsStr "60" ++ jsPadStart (jsOfNat (merchantCity15 p).length) 2 48 ++ merchantCity15 p),
      jsStr "6304" ++ calculateCRC16 (khqrBody p), ?_⟩
    simp [generateKHQRString, khqrBody, List.append_assoc]

/-- Claim C8: currency mapping: a descriptor with currency `"USD"` yields an
output containing `"5303840"`, and one with currency `"KHR"` yields an
output containing `"5303116"`. -/
theorem currency_mapping (p : Payload) :
    (p.currency = jsStr "USD" → containsSeg (jsStr "5303840") (generateKHQRString p)) ∧
    (p.currency = jsStr "KHR" → containsSeg (jsStr "5303116") (generateKHQRString p)) := by
  constructor
  · intro h
    refine ⟨jsStr "000201" ++ jsStr "010212" ++
      (jsStr "29" ++ jsPadStart (jsOfNat (merchantInfo p).length) 2 48 ++ merchantInfo p) ++
      jsStr "52045411",
      (jsStr "54" ++ jsPadStart (jsOfNat (amountStr p).length) 2 48 ++ amountStr p) ++
      jsStr "5802KH" ++
      (jsStr "59" ++ jsPadStart (jsOfNat (merchantName25 p).length) 2 48 ++ merchantName25 p) ++
      (jsStr "60" ++ jsPadStart (jsOfNat (merchantCity15 p).length) 2 48 ++ merchantCity15 p) ++
      (jsStr "62" ++ jsPadStart (jsOfNat (additionalData p).length) 2 48 ++ additionalData p) ++
      jsStr "6304" ++ calculateCRC16 (khqrBody p), ?_⟩
    have hcc : currencyCode p = jsStr "840" := by simp [currencyCode, h]
    simp [generateKHQRString, khqrBody, hcc, List.append_assoc, jsl_5303, jsl_840,
      jsl_5303840, List.cons_append, List.nil_append]
  · intro h
    refine ⟨jsStr "000201" ++ jsStr "010212" ++
      (jsStr "29" ++ jsPadStart (jsOfNat (merchantInfo p).length) 2 48 ++ merchantInfo p) ++
      jsStr "52045411",
      (jsStr "54" ++ jsPadStart (jsOfNat (amountStr p).length) 2 48 ++ amountStr p) ++
      jsStr "5802KH" ++
      (jsStr "59" ++ jsPadStart (jsOfNat (merchantName25 p).length) 2 48 ++ merchantName25 p) ++
      (jsStr "60" ++ jsPadStart (jsOfNat (merchantCity15 p).length) 2 48 ++ merchantCity15 p) ++
      (jsStr "62" ++ jsPadStart (jsOfNat (additionalData p).length) 2 48 ++ additionalData p) ++
      jsStr "6304" ++ calculateCRC16 (khqrBody p), ?_⟩
    have hcc : currencyCode p = jsStr "116" := by
      have : p.currency ≠ jsStr "USD" := by rw [h]; decide
      simp [currencyCode, this]
    simp [generateKHQRString, khqrBody, hcc, List.append_assoc, jsl_5303, jsl_116,
      jsl_5303116, List.cons_append, List.nil_append]

/-- Witness for C8: the USD sample output contains `"5303840"` and the
KHR sample output contains `"5303116"`. -/
theorem currency_mapping_witness :
    containsSeg (jsStr "5303840") (generateKHQRString samplePayload) ∧
    containsSeg (jsStr "5303116") (generateKHQRString samplePayloadKHR) :=
  ⟨(currency_mapping samplePayload).1 rfl, (currency_mapping samplePayloadKHR).2 rfl⟩

/-- Claim C7: silent truncation: a 30-character `merchantName` yields a
tag-59 field whose value is exactly the first 25 characters of the
name with length prefix `"25"`; the city is truncated to its first 15
characters and the transaction id to its first 25; no error is raised
(the encoder is total and still emits the full string). -/
theorem truncation_policy (p : Payload) (hname : p.merchantName.length = 30) :
    merchantName25 p = p.merchantName.take 25 ∧
    (merchantName25 p).length = 25 ∧
    jsPadStart (jsOfNat (merchantName25 p).length) 2 48 = jsStr "25" ∧
    merchantCity15 p = p.merchantCity.take 15 ∧
    billNumber p = p.transactionId.take 25 ∧
    containsSeg (jsStr "59" ++ jsStr "25" ++ merchantName25 p) (generateKHQRString p) := by
  have h25 : (merchantName25 p).length = 25 := by
    simp only [merchantName25, List.length_take, hname]
    omega
  have hpad : jsPadStart (jsOfNat (merchantName25 p).length) 2 48 = jsStr "25" := by
    rw [h25]
    rfl
  refine ⟨rfl, h25, hpad, rfl, rfl, ?_⟩
  refine ⟨jsStr "000201" ++ jsStr "010212" ++
    (jsStr "29" ++ jsPadStart (jsOfNat (merchantInfo p).length) 2 48 ++ merchantInfo p) ++
    jsStr "52045411" ++ (jsStr "5303" ++ currencyCode p) ++
    (jsStr "54" ++ jsPadStart (jsOfNat (amountStr p).length) 2 48 ++ amountStr p) ++
    jsStr "5802KH",
    (jsStr "60" ++ jsPadStart (jsOfNat (merchantCity15 p).length) 2 48 ++ merchantCity15 p) ++
    (jsStr "62" ++ jsPadStart (jsOfNat (additionalData p).length) 2 48 ++ additionalData p) ++
    jsStr "6304" ++ calculateCRC16 (khqrBody p), ?_⟩
  simp [generateKHQRString, khqrBody, hpad, List.append_assoc]

/-- Witness for C7 at a descriptor whose merchant name is the
30-character string `"ABCDEFGHIJKLMNOPQRSTUVWXYZ1234"`. -/
theorem truncation_policy_witness :
    samplePayloadLongName.merchantName.length = 30 ∧
    (merchantName25 samplePayloadLongName = samplePayloadLongName.merchantName.take 25 ∧
     (merchantName25 samplePayloadLongName).length = 25 ∧
     jsPadStart (jsOfNat (merchantName25 samplePayloadLongName).length) 2 48 = jsStr "25" ∧
     merchantCity15 samplePayloadLongName = samplePayloadLongName.merchantCity.take 15 ∧
     billNumber samplePayloadLongName = samplePayloadLongName.transactionId.take 25 ∧
     containsSeg (jsStr "59" ++ jsStr "25" ++ merchantName25 samplePayloadLongName)
       (generateKHQRString samplePayloadLongName)) :=
  ⟨by decide, truncation_policy samplePayloadLongName (by decide)⟩


/-- The body the encoder assembles for the `"EUR"` descriptor. -/
theorem eur_body_eq : khqrBody samplePayloadEUR =
    jsStr "00020101021229290006bakong0115merchant@bakong520454115303116540510.005802KH5908GameHost6010Phnom Penh62120108ORDER1236304" := by
  decide

/-- CRC register after folding the `"EUR"` body, computed in segments
to keep each kernel evaluation small. -/
theorem eur_fold :
    (jsStr "00020101021229290006bakong0115merchant@bakong520454115303116540510.005802KH5908GameHost6010Phnom Penh62120108ORDER1236304").foldl crcChar 0xFFFF = 6602 := by
  rw [show jsStr "00020101021229290006bakong0115merchant@bakong520454115303116540510.005802KH5908GameHost6010Phnom Penh62120108ORDER1236304" =
    jsStr "00020101021229290006bakong0115" ++ (jsStr "merchant@bakong520454115303116" ++
    (jsStr "540510.005802KH5908GameHost601" ++ (jsStr "0Phnom Penh62120108ORDER123630" ++
    jsStr "4"))) from by decide]
  rw [List.foldl_append, List.foldl_append, List.foldl_append, List.foldl_append]
  rw [show (jsStr "00020101021229290006bakong0115").foldl crcChar 0xFFFF = 44246 from by decide]
  rw [show (jsStr "merchant@bakong520454115303116").foldl crcChar 44246 = 65167 from by decide]
  rw [show (jsStr "540510.005802KH5908GameHost601").foldl crcChar 65167 = 54520 from by decide]
  rw [show (jsStr "0Phnom Penh62120108ORDER123630").foldl crcChar 54520 = 46760 from by decide]
  decide

/-- The CRC characters of the `"EUR"` body. -/
theorem eur_crc :
    calculateCRC16 (jsStr "00020101021229290006bakong0115merchant@bakong520454115303116540510.005802KH5908GameHost6010Phnom Penh62120108ORDER1236304") = jsStr "19CA" := by
  unfold calculateCRC16
  rw [eur_fold]
  decide

/-- Counterexample to claim C5 as stated: on the unsupported currency
`"EUR"` the encoder does not fail — it returns a complete KHQR string
(one that encodes the KHR numeric code `116` in tag 53). -/
theorem eur_encodes_not_errors :
    generateKHQRString samplePayloadEUR =
      jsStr "00020101021229290006bakong0115merchant@bakong520454115303116540510.005802KH5908GameHost6010Phnom Penh62120108ORDER123630419CA" := by
  unfold generateKHQRString
  rw [eur_body_eq, eur_crc]
  decide

/-- Claim C5 amended: the encoder performs no currency validation — every
currency other than `"USD"` (unsupported ones included) is encoded
with the KHR numeric code, the output containing `"5303116"`, and a
string is always produced. -/
theorem non_usd_maps_to_116 (p : Payload) (h : p.currency ≠ jsStr "USD") :
    currencyCode p = jsStr "116" ∧
    containsSeg (jsStr "5303116") (generateKHQRString p) := by
  have hcc : currencyCode p = jsStr "116" := by simp [currencyCode, h]
  refine ⟨hcc, ⟨jsStr "000201" ++ jsStr "010212" ++
    (jsStr "29" ++ jsPadStart (jsOfNat (merchantInfo p).length) 2 48 ++ merchantInfo p) ++
    jsStr "52045411",
    (jsStr "54" ++ jsPadStart (jsOfNat (amountStr p).length) 2 48 ++ amountStr p) ++
    jsStr "5802KH" ++
    (jsStr "59" ++ jsPadStart (jsOfNat (merchantName25 p).length) 2 48 ++ merchantName25 p) ++
    (jsStr "60" ++ jsPadStart (jsOfNat (merchantCity15 p).length) 2 48 ++ merchantCity15 p) ++
    (jsStr "62" ++ jsPadStart (jsOfNat (additionalData p).length) 2 48 ++ additionalData p) ++
    jsStr "6304" ++ calculateCRC16 (khqrBody p), ?_⟩⟩
  simp [generateKHQRString, khqrBody, hcc, List.append_assoc, jsl_5303, jsl_116,
    jsl_5303116, List.cons_append, List.nil_append]

/-- Witness for the amended C5 at the `"EUR"` descriptor. -/
theorem non_usd_maps_to_116_witness :
    currencyCode samplePayloadEUR = jsStr "116" ∧
    containsSeg (jsStr "5303116") (generateKHQRString samplePayloadEUR) :=
  non_usd_maps_to_116 samplePayloadEUR (by decide)


/-- The body the encoder assembles for the negative-amount descriptor. -/
theorem neg_body_eq : khqrBody samplePayloadNeg =
    jsStr "00020101021229290006bakong0115merchant@bakong5204541153038405405-5.005802KH5908GameHost6010Phnom Penh62120108ORDER1236304" := by
  decide

/-- CRC register after folding the negative-amount body, in segments. -/
theorem neg_fold :
    (jsStr "00020101021229290006bakong0115merchant@bakong5204541153038405405-5.005802KH5908GameHost6010Phnom Penh62120108ORDER1236304").foldl crcChar 0xFFFF = 55506 := by
  rw [show jsStr "00020101021229290006bakong0115merchant@bakong5204541153038405405-5.005802KH5908GameHost6010Phnom Penh62120108ORDER1236304" =
    jsStr "00020101021229290006bakong0115" ++ (jsStr "merchant@bakong520454115303840" ++
    (jsStr "5405-5.005802KH5908GameHost601" ++ (jsStr "0Phnom Penh62120108ORDER123630" ++
    jsStr "4"))) from by decide]
  rw [List.foldl_append, List.foldl_append, List.foldl_append, List.foldl_append]
  rw [show (jsStr "00020101021229290006bakong0115").foldl crcChar 0xFFFF = 44246 from by decide]
  rw [show (jsStr "merchant@bakong520454115303840").foldl crcChar 44246 = 65325 from by decide]
  rw [show (jsStr "5405-5.005802KH5908GameHost601").foldl crcChar 65325 = 51678 from by decide]
  rw [show (jsStr "0Phnom Penh62120108ORDER123630").foldl crcChar 51678 = 45034 from by decide]
  decide

/-- The CRC characters of the negative-amount body. -/
theorem neg_crc :
    calculateCRC16 (jsStr "00020101021229290006bakong0115merchant@bakong5204541153038405405-5.005802KH5908GameHost6010Phnom Penh62120108ORDER1236304") = jsStr "D8D2" := by
  unfold calculateCRC16
  rw [neg_fold]
  decide

/-- Counterexample to claim C6 as stated: on the negative amount string
`"-5.00"` (what the call site's `(-5).toFixed(2)` produces — the
handler's `!amount` check only rejects falsy amounts such as `0` or
`NaN`) the encoder does not fail: it returns a complete string whose
tag-54 field carries the negative amount. -/
theorem negative_amount_encodes_not_errors :
    generateKHQRString samplePayloadNeg =
      jsStr "00020101021229290006bakong0115merchant@bakong5204541153038405405-5.005802KH5908GameHost6010Phnom Penh62120108ORDER1236304D8D2" := by
  unfold generateKHQRString
  rw [neg_body_eq, neg_crc]
  decide

/-- Claim C6 amended: the encoder performs no amount validation — for every
descriptor, whatever its amount string (negative renderings included),
a string is returned whose tag-54 field carries the amount verbatim
with a recomputed length prefix. -/
theorem amount_emitted_verbatim (p : Payload) :
    containsSeg (jsStr "54" ++ jsPadStart (jsOfNat p.amount.length) 2 48 ++ p.amount)
      (generateKHQRString p) := by
  refine ⟨jsStr "000201" ++ jsStr "010212" ++
    (jsStr "29" ++ jsPadStart (jsOfNat (merchantInfo p).length) 2 48 ++ merchantInfo p) ++
    jsStr "52045411" ++ (jsStr "5303" ++ currencyCode p),
    jsStr "5802KH" ++
    (jsStr "59" ++ jsPadStart (jsOfNat (merchantName25 p).length) 2 48 ++ merchantName25 p) ++
    (jsStr "60" ++ jsPadStart (jsOfNat (merchantCity15 p).length) 2 48 ++ merchantCity15 p) ++
    (jsStr "62" ++ jsPadStart (jsOfNat (additionalData p).length) 2 48 ++ additionalData p) ++
    jsStr "6304" ++ calculateCRC16 (khqrBody p), ?_⟩
  simp [generateKHQRString, khqrBody, amountStr, List.append_assoc]

/-!
## CRC source/reference equivalence (C2)

The source masks the register to 16 bits only after the eight inner
rounds of each character, while the reference masks after every shift;
the lemmas below show the extra high bits the source carries never
reach bit 15 (the only bit the branch tests) and are erased by the
final mask, so the two agree.
-/

theorem mask_bit15 (s : Nat) : (s &&& 65535) &&& 32768 = s &&& 32768 := by
  rw [Nat.and_assoc, show (65535 &&& 32768 : Nat) = 32768 from by decide]

theorem low16_shift (s : Nat) :
    ((s &&& 65535) <<< 1) &&& 65535 = ((s <<< 1) % 4294967296) &&& 65535 := by
  have h1 : (65535 : Nat) = 2 ^ 16 - 1 := by norm_num
  have h2 : (4294967296 : Nat) = 2 ^ 32 := by norm_num
  rw [h1, h2]
  apply Nat.eq_of_testBit_eq
  intro i
  simp only [Nat.testBit_and, Nat.testBit_shiftLeft, Nat.testBit_mod_two_pow,
    Nat.testBit_two_pow_sub_one]
  by_cases h16 : i < 16
  · by_cases hi1 : 1 ≤ i
    · simp [h16, hi1, show i - 1 < 16 from by omega, show i < 32 from by omega]
    · simp [h16, hi1, show i < 32 from by omega]
  · simp [h16]

theorem low16_shift_xor (s : Nat) :
    (((s &&& 65535) <<< 1) ^^^ 4129) &&& 65535 =
      (((s <<< 1) % 4294967296) ^^^ 4129) &&& 65535 := by
  have h1 : (65535 : Nat) = 2 ^ 16 - 1 := by norm_num
  have h2 : (4294967296 : Nat) = 2 ^ 32 := by norm_num
  rw [h1, h2]
  apply Nat.eq_of_testBit_eq
  intro i
  simp only [Nat.testBit_and, Nat.testBit_xor, Nat.testBit_shiftLeft,
    Nat.testBit_mod_two_pow, Nat.testBit_two_pow_sub_one]
  by_cases h16 : i < 16
  · by_cases hi1 : 1 ≤ i
    · simp [h16, hi1, show i - 1 < 16 from by omega, show i < 32 from by omega]
    · simp [h16, hi1, show i < 32 from by omega]
  · simp [h16]

theorem low16_shift_nomod (s : Nat) :
    ((s &&& 65535) <<< 1) &&& 65535 = (s <<< 1) &&& 65535 := by
  have h1 : (65535 : Nat) = 2 ^ 16 - 1 := by norm_num
  rw [h1]
  apply Nat.eq_of_testBit_eq
  intro i
  simp only [Nat.testBit_and, Nat.testBit_shiftLeft, Nat.testBit_two_pow_sub_one]
  by_cases h16 : i < 16
  · by_cases hi1 : 1 ≤ i
    · simp [h16, hi1, show i - 1 < 16 from by omega]
    · simp [h16, hi1]
  · simp [h16]

theorem low16_shift_xor_nomod (s : Nat) :
    (((s &&& 65535) <<< 1) ^^^ 4129) &&& 65535 = ((s <<< 1) ^^^ 4129) &&& 65535 := by
  have h1 : (65535 : Nat) = 2 ^ 16 - 1 := by norm_num
  rw [h1]
  apply Nat.eq_of_testBit_eq
  intro i
  simp only [Nat.testBit_and, Nat.testBit_xor, Nat.testBit_shiftLeft,
    Nat.testBit_two_pow_sub_one]
  by_cases h16 : i < 16
  · by_cases hi1 : 1 ≤ i
    · simp [h16, hi1, show i - 1 < 16 from by omega]
    · simp [h16, hi1]
  · simp [h16]

/-- A reference round of the masked register is a source round
followed by the mask. -/
theorem crcRefRound_mask (s : Nat) : crcRefRound (s &&& 65535) = crcRound s &&& 65535 := by
  by_cases hc : s &&& 32768 = 0
  · simp only [crcRefRound, crcRound, mask_bit15, hc, ne_eq, not_true_eq_false, if_false,
      not_false_eq_true]
    exact low16_shift s
  · simp only [crcRefRound, crcRound, mask_bit15, hc, ne_eq, not_false_eq_true, if_true]
    exact low16_shift_xor s

/-- Bits above 15 in the incoming register do not change a reference
round. -/
theorem crcRefRound_drop_mask (s : Nat) : crcRefRound (s &&& 65535) = crcRefRound s := by
  by_cases hc : s &&& 32768 = 0
  · simp only [crcRefRound, mask_bit15, hc, ne_eq, not_true_eq_false, if_false]
    exact low16_shift_nomod s
  · simp only [crcRefRound, mask_bit15, hc, ne_eq, not_false_eq_true, if_true]
    exact low16_shift_xor_nomod s

/-- Reference rounds of the masked register equal source rounds
followed by the mask. -/
theorem crcRefRounds_mask : ∀ (k : Nat) (s : Nat),
    crcRefRounds (s &&& 65535) k = (crcRounds s k) &&& 65535 := by
  intro k
  induction k with
  | zero => intro s; rfl
  | succ k ih =>
    intro s
    show crcRefRounds (crcRefRound (s &&& 65535)) k = crcRounds (crcRound s) k &&& 65535
    rw [crcRefRound_mask]
    exact ih (crcRound s)

/-- Bits above 15 in the incoming register do not change eight
reference rounds. -/
theorem crcRefRounds8_drop_mask (x : Nat) :
    crcRefRounds (x &&& 65535) 8 = crcRefRounds x 8 := by
  show crcRefRounds (crcRefRound (x &&& 65535)) 7 = crcRefRounds (crcRefRound x) 7
  rw [crcRefRound_drop_mask]

/-- On any 16-bit code unit the source's per-character step equals the
reference per-character step. -/
theorem crcChar_eq_ref (s c : Nat) (hc : c < 65536) : crcChar s c = crcRefChar s c := by
  unfold crcChar crcRefChar
  have hlt : (c <<< 8) < 4294967296 := by
    rw [Nat.shiftLeft_eq]
    norm_num
    omega
  rw [Nat.mod_eq_of_lt hlt]
  rw [← crcRefRounds8_drop_mask (s ^^^ c <<< 8)]
  exact (crcRefRounds_mask 8 (s ^^^ c <<< 8)).symm

/-- The source fold and the reference fold agree on strings of code
units. -/
theorem foldl_crc_eq : ∀ (l : JStr), (∀ c ∈ l, c < 65536) →
    ∀ s, l.foldl crcChar s = l.foldl crcRefChar s := by
  intro l
  induction l with
  | nil => exact fun _ _ => rfl
  | cons c l ih =>
    intro h s
    simp only [List.foldl_cons]
    rw [crcChar_eq_ref s c (h c (by simp))]
    exact ih (fun d hd => h d (by simp [hd])) _

/-- Claim C2: the function `calculateCRC16` equals the CRC16-CCITT-FALSE reference
definition on every finite sequence of code units; in particular it
maps the empty string to `"FFFF"`, and it always returns exactly four
characters (it is total and never fails). -/
theorem crc16_matches_reference :
    calculateCRC16 (jsStr "") = jsStr "FFFF" ∧
    (∀ l : JStr, (calculateCRC16 l).length = 4) ∧
    (∀ l : JStr, (∀ c ∈ l, c < 65536) → calculateCRC16 l = crc16Ref l) := by
  refine ⟨by decide, calculateCRC16_length, ?_⟩
  intro l h
  unfold calculateCRC16 crc16Ref
  rw [foldl_crc_eq l h]

/-- Witness for C2 at the standard CRC test vector `"123456789"`. -/
theorem crc16_matches_reference_witness :
    (∀ c ∈ jsStr "123456789", c < 65536) ∧
    calculateCRC16 (jsStr "123456789") = crc16Ref (jsStr "123456789") :=
  ⟨by decide, crc16_matches_reference.2.2 (jsStr "123456789") (by decide)⟩

/-- Claim C3: every emitted length prefix is recomputed from its actual
value, so a sequential `tag(2)+length(2)+value(length)` parse of the
output recovers exactly the field values used to construct it, with
no leftover or missing characters; the nested tag-29 and tag-62
values parse the same way into their sub-fields. The hypotheses keep
every variable-length value within the two-digit length capacity
(beyond it the spec declares the descriptor malformed). -/
theorem tlv_roundtrip (p : Payload) (hid : p.merchantId.length ≤ 85)
    (hamt : p.amount.length ≤ 99) :
    parseTLV (generateKHQRString p) =
      some [(jsStr "00", jsStr "01"), (jsStr "01", jsStr "12"),
            (jsStr "29", merchantInfo p), (jsStr "52", jsStr "5411"),
            (jsStr "53", currencyCode p), (jsStr "54", p.amount),
            (jsStr "58", jsStr "KH"), (jsStr "59", merchantName25 p),
            (jsStr "60", merchantCity15 p), (jsStr "62", additionalData p),
            (jsStr "63", calculateCRC16 (khqrBody p))] ∧
    parseTLV (merchantInfo p) =
      some [(jsStr "00", jsStr "bakong"), (jsStr "01", p.merchantId)] ∧
    parseTLV (additionalData p) = some [(jsStr "01", billNumber p)] := by
  have hidle : p.merchantId.length ≤ 99 := by omega
  have hmiLen := merchantInfo_length p hidle
  have hmiLe : (merchantInfo p).length ≤ 99 := by omega
  have hadLen := additionalData_length p
  have hbill := billNumber_length_le p
  have hadLe : (additionalData p).length ≤ 99 := by omega
  have hcrcLen := calculateCRC16_length (khqrBody p)
  obtain ⟨a1, a2, ha, hadec⟩ := pad2_digits hmiLe
  obtain ⟨b1, b2, hb, hbdec⟩ := pad2_digits hamt
  obtain ⟨c1, c2, hc, hcdec⟩ :=
    pad2_digits (le_trans (merchantName25_length_le p) (by norm_num))
  obtain ⟨e1, e2, he, hedec⟩ :=
    pad2_digits (le_trans (merchantCity15_length_le p) (by norm_num))
  obtain ⟨f1, f2, hf, hfdec⟩ := pad2_digits hadLe
  obtain ⟨g1, g2, hg, hgdec⟩ := pad2_digits (le_trans hbill (by norm_num))
  obtain ⟨i1, i2, hi, hidec⟩ := pad2_digits hidle
  refine ⟨?_, ?_, ?_⟩
  · -- the full output
    have t63 : parseTLV (54 :: 51 :: 48 :: 52 :: calculateCRC16 (khqrBody p)) =
        some [([54, 51], calculateCRC16 (khqrBody p))] :=
      parseTLV_last 54 51 48 52 _ (by rw [hcrcLen])
    have t62 : parseTLV (54 :: 50 :: f1 :: f2 :: (additionalData p ++ (54 :: 51 :: 48 :: 52 :: calculateCRC16 (khqrBody p)))) =
        some [([54, 50], additionalData p),
        ([54, 51], calculateCRC16 (khqrBody p))] := by
      rw [parseTLV_chunk 54 50 f1 f2 (additionalData p) _ hfdec, t63]
      rfl
    have t60 : parseTLV (54 :: 48 :: e1 :: e2 :: (merchantCity15 p ++ (54 :: 50 :: f1 :: f2 :: (additionalData p ++ (54 :: 51 :: 48 :: 52 :: calculateCRC16 (khqrBody p)))))) =
        some [([54, 48], merchantCity15 p),
        ([54, 50], additionalData p),
        ([54, 51], calculateCRC16 (khqrBody p))] := by
      rw [parseTLV_chunk 54 48 e1 e2 (merchantCity15 p) _ hedec, t62]
      rfl
    have t59 : parseTLV (53 :: 57 :: c1 :: c2 :: (merchantName25 p ++ (54 :: 48 :: e1 :: e2 :: (merchantCity15 p ++ (54 :: 50 :: f1 :: f2 :: (additionalData p ++ (54 :: 51 :: 48 :: 52 :: calculateCRC16 (khqrBody p)))))))) =
        some [([53, 57], merchantName25 p),
        ([54, 48], merchantCity15 p),
        ([54, 50], additionalData p),
        ([54, 51], calculateCRC16 (khqrBody p))] := by
      rw [parseTLV_chunk 53 57 c1 c2 (merchantName25 p) _ hcdec, t60]
      rfl
    have t58 : parseTLV (53 :: 56 :: 48 :: 50 :: ([75, 72] ++ (53 :: 57 :: c1 :: c2 :: (merchantName25 p ++ (54 :: 48 :: e1 :: e2 :: (merchantCity15 p ++ (54 :: 50 :: f1 :: f2 :: (additionalData p ++ (54 :: 51 :: 48 :: 52 :: calculateCRC16 (khqrBody p)))))))))) =
        some [([53, 56], [75, 72]),
        ([53, 57], merchantName25 p),
        ([54, 48], merchantCity15 p),
        ([54, 50], additionalData p),
        ([54, 51], calculateCRC16 (khqrBody p))] := by
      rw [parseTLV_chunk 53 56 48 50 ([75, 72]) _ (by decide), t59]
      rfl
    have t54 : parseTLV (53 :: 52 :: b1 :: b2 :: (p.amount ++ (53 :: 56 :: 48 :: 50 :: ([75, 72] ++ (53 :: 57 :: c1 :: c2 :: (merchantName25 p ++ (54 :: 48 :: e1 :: e2 :: (merchantCity15 p ++ (54 :: 50 :: f1 :: f2 :: (additionalData p ++ (54 :: 51 :: 48 :: 52 :: calculateCRC16 (khqrBody p)))))))))))) =
        some [([53, 52], p.amount),
        ([53, 56], [75, 72]),
        ([53, 57], merchantName25 p),
        ([54, 48], merchantCity15 p),
        ([54, 50], additionalData p),
        ([54, 51], calculateCRC16 (khqrBody p))] := by
      rw [parseTLV_chunk 53 52 b1 b2 (p.amount) _ hbdec, t58]
      rfl
    have t53 : parseTLV (53 :: 51 :: 48 :: 51 :: (currencyCode p ++ (53 :: 52 :: b1 :: b2 :: (p.amount ++ (53 :: 56 :: 48 :: 50 :: ([75, 72] ++ (53 :: 57 :: c1 :: c2 :: (merchantName25 p ++ (54 :: 48 :: e1 :: e2 :: (merchantCity15 p ++ (54 :: 50 :: f1 :: f2 :: (additionalData p ++ (54 :: 51 :: 48 :: 52 :: calculateCRC16 (khqrBody p)))))))))))))) =
        some [([53, 51], currencyCode p),
        ([53, 52], p.amount),
        ([53, 56], [75, 72]),
        ([53, 57], merchantName25 p),
        ([54, 48], merchantCity15 p),
        ([54, 50], additionalData p),
        ([54, 51], calculateCRC16 (khqrBody p))] := by
      rw [parseTLV_chunk 53 51 48 51 (currencyCode p) _ (by rw [currencyCode_length]), t54]
      rfl
    have t52 : parseTLV (53 :: 50 :: 48 :: 52 :: ([53, 52, 49, 49] ++ (53 :: 51 :: 48 :: 51 :: (currencyCode p ++ (53 :: 52 :: b1 :: b2 :: (p.amount ++ (53 :: 56 :: 48 :: 50 :: ([75, 72] ++ (53 :: 57 :: c1 :: c2 :: (merchantName25 p ++ (54 :: 48 :: e1 :: e2 :: (merchantCity15 p ++ (54 :: 50 :: f1 :: f2 :: (additionalData p ++ (54 :: 51 :: 48 :: 52 :: calculateCRC16 (khqrBody p)))))))))))))))) =
        some [([53, 50], [53, 52, 49, 49]),
        ([53, 51], currencyCode p),
        ([53, 52], p.amount),
        ([53, 56], [75, 72]),
        ([53, 57], merchantName25 p),
        ([54, 48], merchantCity15 p),
        ([54, 50], additionalData p),
        ([54, 51], calculateCRC16 (khqrBody p))] := by
      rw [parseTLV_chunk 53 50 48 52 ([53, 52, 49, 49]) _ (by decide), t53]
      rfl
    have t29 : parseTLV (50 :: 57 :: a1 :: a2 :: (merchantInfo p ++ (53 :: 50 :: 48 :: 52 :: ([53, 52, 49, 49] ++ (53 :: 51 :: 48 :: 51 :: (currencyCode p ++ (53 :: 52 :: b1 :: b2 :: (p.amount ++ (53 :: 56 :: 48 :: 50 :: ([75, 72] ++ (53 :: 57 :: c1 :: c2 :: (merchantName25 p ++ (54 :: 48 :: e1 :: e2 :: (merchantCity15 p ++ (54 :: 50 :: f1 :: f2 :: (additionalData p ++ (54 :: 51 :: 48 :: 52 :: calculateCRC16 (khqrBody p)))))))))))))))))) =
        some [([50, 57], merchantInfo p),
        ([53, 50], [53, 52, 49, 49]),
        ([53, 51], currencyCode p),
        ([53, 52], p.amount),
        ([53, 56], [75, 72]),
        ([53, 57], merchantName25 p),
        ([54, 48], merchantCity15 p),
        ([54, 50], additionalData p),
        ([54, 51], calculateCRC16 (khqrBody p))] := by
      rw [parseTLV_chunk 50 57 a1 a2 (merchantInfo p) _ hadec, t52]
      rfl
    have t01 : parseTLV (48 :: 49 :: 48 :: 50 :: ([49, 50] ++ (50 :: 57 :: a1 :: a2 :: (merchantInfo p ++ (53 :: 50 :: 48 :: 52 :: ([53, 52, 49, 49] ++ (53 :: 51 :: 48 :: 51 :: (currencyCode p ++ (53 :: 52 :: b1 :: b2 :: (p.amount ++ (53 :: 56 :: 48 :: 50 :: ([75, 72] ++ (53 :: 57 :: c1 :: c2 :: (merchantName25 p ++ (54 :: 48 :: e1 :: e2 :: (merchantCity15 p ++ (54 :: 50 :: f1 :: f2 :: (additionalData p ++ (54 :: 51 :: 48 :: 52 :: calculateCRC16 (khqrBody p)))))))))))))))))))) =
        some [([48, 49], [49, 50]),
        ([50, 57], merchantInfo p),
        ([53, 50], [53, 52, 49, 49]),
        ([53, 51], currencyCode p),
        ([53, 52], p.amount),
        ([53, 56], [75, 72]),
        ([53, 57], merchantName25 p),
        ([54, 48], merchantCity15 p),
        ([54, 50], additionalData p),
        ([54, 51], calculateCRC16 (khqrBody p))] := by
      rw [parseTLV_chunk 48 49 48 50 ([49, 50]) _ (by decide), t29]
      rfl
    have t00 : parseTLV (48 :: 48 :: 48 :: 50 :: ([48, 49] ++ (48 :: 49 :: 48 :: 50 :: ([49, 50] ++ (50 :: 57 :: a1 :: a2 :: (merchantInfo p ++ (53 :: 50 :: 48 :: 52 :: ([53, 52, 49, 49] ++ (53 :: 51 :: 48 :: 51 :: (currencyCode p ++ (53 :: 52 :: b1 :: b2 :: (p.amount ++ (53 :: 56 :: 48 :: 50 :: ([75, 72] ++ (53 :: 57 :: c1 :: c2 :: (merchantName25 p ++ (54 :: 48 :: e1 :: e2 :: (merchantCity15 p ++ (54 :: 50 :: f1 :: f2 :: (additionalData p ++ (54 :: 51 :: 48 :: 52 :: calculateCRC16 (khqrBody p)))))))))))))))))))))) =
        some [([48, 48], [48, 49]),
        ([48, 49], [49, 50]),
        ([50, 57], merchantInfo p),
        ([53, 50], [53, 52, 49, 49]),
        ([53, 51], currencyCode p),
        ([53, 52], p.amount),
        ([53, 56], [75, 72]),
        ([53, 57], merchantName25 p),
        ([54, 48], merchantCity15 p),
        ([54, 50], additionalData p),
        ([54, 51], calculateCRC16 (khqrBody p))] := by
      rw [parseTLV_chunk 48 48 48 50 ([48, 49]) _ (by decide), t01]
      rfl
    have hshape : generateKHQRString p =
        48 :: 48 :: 48 :: 50 :: ([48, 49] ++ (48 :: 49 :: 48 :: 50 :: ([49, 50] ++ (50 :: 57 :: a1 :: a2 :: (merchantInfo p ++ (53 :: 50 :: 48 :: 52 :: ([53, 52, 49, 49] ++ (53 :: 51 :: 48 :: 51 :: (currencyCode p ++ (53 :: 52 :: b1 :: b2 :: (p.amount ++ (53 :: 56 :: 48 :: 50 :: ([75, 72] ++ (53 :: 57 :: c1 :: c2 :: (merchantName25 p ++ (54 :: 48 :: e1 :: e2 :: (merchantCity15 p ++ (54 :: 50 :: f1 :: f2 :: (additionalData p ++ (54 :: 51 :: 48 :: 52 :: calculateCRC16 (khqrBody p))))))))))))))))))))) := by
      simp only [generateKHQRString, khqrBody, amountStr, ha, hb, hc, he, hf,
        jsl_000201, jsl_010212, jsl_29, jsl_52045411, jsl_5303, jsl_54, jsl_5802KH,
        jsl_59, jsl_60, jsl_62, jsl_6304, List.cons_append, List.nil_append,
        List.append_assoc]
    rw [hshape]
    exact t00
  · -- the nested tag-29 value
    have hmi : merchantInfo p =
        48 :: 48 :: 48 :: 54 :: ([98, 97, 107, 111, 110, 103] ++
          (48 :: 49 :: i1 :: i2 :: p.merchantId)) := by
      simp only [merchantInfo, merchantAcct, jsl_bakongId, jsl_01, hi,
        List.cons_append, List.nil_append, List.append_assoc]
    rw [hmi, parseTLV_chunk 48 48 48 54 ([98, 97, 107, 111, 110, 103]) _ (by decide),
      parseTLV_last 48 49 i1 i2 p.merchantId hidec]
    rfl
  · -- the nested tag-62 value
    have had : additionalData p = 48 :: 49 :: g1 :: g2 :: billNumber p := by
      simp only [additionalData, hg, jsl_01, List.cons_append, List.nil_append,
        List.append_assoc]
    rw [had]
    exact parseTLV_last 48 49 g1 g2 _ hgdec

/-- Witness for C3 at the spec §8 sample descriptor. -/
theorem tlv_roundtrip_witness :
    samplePayload.merchantId.length ≤ 85 ∧ samplePayload.amount.length ≤ 99 ∧
    (parseTLV (generateKHQRString samplePayload) =
      some [(jsStr "00", jsStr "01"), (jsStr "01", jsStr "12"),
            (jsStr "29", merchantInfo samplePayload), (jsStr "52", jsStr "5411"),
            (jsStr "53", currencyCode samplePayload), (jsStr "54", samplePayload.amount),
            (jsStr "58", jsStr "KH"), (jsStr "59", merchantName25 samplePayload),
            (jsStr "60", merchantCity15 samplePayload),
            (jsStr "62", additionalData samplePayload),
            (jsStr "63", calculateCRC16 (khqrBody samplePayload))] ∧
    parseTLV (merchantInfo samplePayload) =
      some [(jsStr "00", jsStr "bakong"), (jsStr "01", samplePayload.merchantId)] ∧
    parseTLV (additionalData samplePayload) =
      some [(jsStr "01", billNumber samplePayload)]) :=
  ⟨by decide, by decide, tlv_roundtrip samplePayload (by decide) (by decide)⟩
